import Mathlib

/-!
Shallow embedding of the task api of assemblyline-service-server
(`assemblyline_service_server/api/v1/task.py`): the work pickup handler
(`get_task`), the result/error finalization handlers (`task_finished`,
`handle_task_result`, `handle_task_error`) and the heuristic scorer
(`Heuristic.__init__`).

External collaborators (the dispatch client, the durable store, the blob
store, the heuristic catalog snapshot, the attack map, the tag whitelister
and the odm schema validators) are modelled as explicit environment
records of pure functions; the handlers record their calls to those
collaborators so that call/no-call properties can be stated.  Python
integers are Int, Python exceptions are an explicit error type threaded
with Except, and Python dicts keyed by strings are association lists.
-/

deriving instance DecidableEq for Except

namespace ALSvc

/-- The Python exceptions that can cross the handlers in task.py. -/
inductive PyErr
  | keyError (key : String)
  | valueError (msg : String)
  | attributeError (msg : String)
  | invalidHeuristic (msg : String)
  deriving Repr, DecidableEq

/-- First-match association-list lookup, modelling a Python dict keyed by
strings (models `d.get(k)` / `k in d` / `d[k]`). -/
def assoc (m : List (String × Int)) (k : String) : Option Int :=
  (m.find? (fun p => p.1 == k)).map (fun p => p.2)

/-- A heuristic definition from the catalog cache (external, read-only):
base score, optional max score, per-signature score overrides. -/
structure HeurDef where
  name : String
  classification : String
  score : Int
  max_score : Option Int
  signature_score_map : List (String × Int)
  deriving Repr, DecidableEq

/-- The `signatures` argument of `Heuristic.__init__` as the Python caller
passes it: either a dict, or the list default `[]` that
`section["heuristic"].pop("signatures", [])` produces when the section
omits the signatures mapping. -/
inductive SigArg
  | dict (entries : List (String × Int))
  | emptyList
  deriving Repr, DecidableEq

/-- The state of a constructed `Heuristic` object (task.py lines 146-182). -/
structure ScoredHeur where
  heur_id : String
  attack_ids : List String
  signatures : List (String × Int)
  score : Int
  name : String
  classification : String
  deriving Repr, DecidableEq

/-- `Heuristic.__init__` (task.py lines 147-182).  `catalog` is the
heuristic catalog cache (`heuristics.get`), `inAttackMap` is membership in
`attack_map`.  An unknown id raises `InvalidHeuristicException`; the
signature loop iterates the *argument* `signatures`, so the list default
raises AttributeError exactly as `[].items()` does in Python; otherwise
the score is the signature sum plus base times frequency, floored at the
base score and, when `definition.max_score` is truthy, capped at it. -/
def heuristicInit (catalog : String → Option HeurDef) (inAttackMap : String → Bool)
    (heur_id : String) (attack_ids : List String) (signatures : SigArg)
    (frequency : Int) : Except PyErr ScoredHeur :=
  match catalog heur_id with
  | none => .error (.invalidHeuristic "Heuristic does not exist, skipping...")
  | some definition =>
    let atk := attack_ids.filter inAttackMap
    match signatures with
    | .emptyList => .error (.attributeError "list object has no attribute items")
    | .dict sigs =>
      let sigScore := sigs.foldl
        (fun acc p =>
          match assoc definition.signature_score_map p.1 with
          | some s => acc + s * p.2
          | none => acc + definition.score * p.2) 0
      let withFreq := sigScore + definition.score * frequency
      let floored := max definition.score withFreq
      let clamped :=
        match definition.max_score with
        | some m => if m = 0 then floored else min floored m
        | none => floored
      .ok { heur_id := heur_id, attack_ids := atk, signatures := sigs,
            score := clamped, name := definition.name,
            classification := definition.classification }

/-- The score formula exactly as the claim words it: signature sum (override
if defined else base, times frequency) plus base times occurrence
frequency, then max with the base score, then min with the max score
whenever one is configured. -/
def claimScoreSpec (B : Int) (O : List (String × Int)) (M : Option Int)
    (sigs : List (String × Int)) (freq : Int) : Int :=
  let raw := sigs.foldl (fun acc p => acc + ((assoc O p.1).getD B) * p.2) 0 + B * freq
  let floored := max raw B
  match M with
  | some m => min floored m
  | none => floored

/-- The score formula with the clamp as the code applies it: the min with
the configured max score is only taken when that max score is nonzero
(Python truthiness of `definition.max_score`). -/
def claimScoreAmended (B : Int) (O : List (String × Int)) (M : Option Int)
    (sigs : List (String × Int)) (freq : Int) : Int :=
  let raw := sigs.foldl (fun acc p => acc + ((assoc O p.1).getD B) * p.2) 0 + B * freq
  let floored := max raw B
  match M with
  | some m => if m = 0 then floored else min floored m
  | none => floored

lemma sigFold_eq (m : List (String × Int)) (B : Int) (sigs : List (String × Int)) :
    ∀ acc : Int,
      sigs.foldl
        (fun acc p
          => match assoc m p.1 with
             | some s => acc + s * p.2
             | none => acc + B * p.2) acc
      = sigs.foldl (fun acc p => acc + ((assoc m p.1).getD B) * p.2) acc := by
  induction sigs with
  | nil => intro acc; rfl
  | cons p rest ih =>
    intro acc
    simp only [List.foldl_cons]
    cases h : assoc m p.1 with
    | none => simp only [h, Option.getD_none]; exact ih _
    | some s => simp only [h, Option.getD_some]; exact ih _

/-- For a resolvable id and a dict of signatures, the scorer succeeds and
computes exactly the truthiness-clamped formula. -/
lemma heuristicInit_score (catalog : String → Option HeurDef) (inAttackMap : String → Bool)
    (heur_id : String) (attack_ids : List String) (sigs : List (String × Int))
    (frequency : Int) (d : HeurDef) (hres : catalog heur_id = some d) :
    heuristicInit catalog inAttackMap heur_id attack_ids (.dict sigs) frequency
      = .ok { heur_id := heur_id, attack_ids := attack_ids.filter inAttackMap,
              signatures := sigs,
              score := claimScoreAmended d.score d.signature_score_map d.max_score sigs frequency,
              name := d.name, classification := d.classification } := by
  unfold heuristicInit
  rw [hres]
  simp only [claimScoreAmended, sigFold_eq d.signature_score_map d.score sigs 0]
  cases d.max_score <;> simp [Int.max_comm]

/-! ## Result finalization (`handle_task_result`, task.py lines 185-275) -/

/-- A service task as the handlers read it: submission id, file hash,
time-to-live in days and the cache-bypass flag. -/
structure Task where
  sid : String
  sha256 : String
  ttl : Int
  ignore_cache : Bool
  deriving Repr, DecidableEq

/-- Per-request client identity from the authenticated headers. -/
structure ClientInfo where
  service_name : String
  client_id : String
  deriving Repr, DecidableEq

/-- Section tags are handled opaquely by the code paths under study (the
whitelister and the strict schema validator are external); we model a tag
mapping as an opaque blob. -/
abbrev TagMap := String

/-- A raw heuristic reference on a submitted section.  `none` fields model
absent keys, for which `pop` supplies the defaults `[]`, `[]` and `0`;
note the absent-signatures default is the *list* `[]`. -/
structure RawHeuristic where
  heur_id : String
  attack_ids : Option (List String)
  signatures : Option (List (String × Int))
  frequency : Option Int
  deriving Repr, DecidableEq

/-- A submitted result section before finalization. -/
structure RawSection where
  heuristic : Option RawHeuristic
  tags : TagMap
  deriving Repr, DecidableEq

/-- One expanded attack-technique record on a finalized heuristic. -/
structure AttackItem where
  attack_id : String
  pattern : String
  categories : List String
  deriving Repr, DecidableEq

/-- One expanded signature record on a finalized heuristic. -/
structure SigItem where
  name : String
  frequency : Int
  deriving Repr, DecidableEq

/-- The dict assigned to `section["heuristic"]` on success (lines 203-227). -/
structure FinalHeur where
  heur_id : String
  score : Int
  name : String
  attack : List AttackItem
  signature : List SigItem
  deriving Repr, DecidableEq

/-- A finalized section. -/
structure FinalSection where
  heuristic : Option FinalHeur
  tags : TagMap
  deriving Repr, DecidableEq

/-- The `result` sub-object of a submitted result payload: the sections and
the worker-declared aggregate score (which finalization overwrites). -/
structure ResultBody where
  sections : List RawSection
  score : Int
  deriving Repr, DecidableEq

/-- The `response` sub-object: extracted/supplementary file hashes and the
tool version that enters the storage key. -/
structure ResponseBody where
  extracted : List String
  supplementary : List String
  service_tool_version : Option String
  deriving Repr, DecidableEq

/-- A submitted result payload.  `result = none` models a body whose
`result` key maps to a dict without the `result` sub-object, which the code
reads unconditionally (line 191). -/
structure ResultPayload where
  result : Option ResultBody
  response : ResponseBody
  temp_submission_data : Option String
  deriving Repr, DecidableEq

/-- The finalized Result document handed to the dispatch client. -/
structure StoredResult where
  sections : List FinalSection
  score : Int
  created : Int
  archive_ts : Int
  expiry_ts : Option Int
  response : ResponseBody
  deriving Repr, DecidableEq

/-- One `dispatch_client.service_finished` call made by `handle_task_result`. -/
structure FinCall where
  sid : String
  key : String
  result : StoredResult
  temp_submission_data : Option String
  deriving Repr, DecidableEq

/-- One `dispatch_client.service_failed` call made by `handle_task_error`. -/
structure FailCall where
  sid : String
  key : String
  status : String
  deriving Repr, DecidableEq

/-- Environment of external collaborators for the POST handler: the
heuristic catalog snapshot, the attack map (id to pattern name and
categories), the composed tag whitelister plus strict-schema tag pass, the
durable-store file-metadata and blob-store existence checks, the two
deterministic key builders, the outcome of the external strict-schema
`Result(...)` constructor, and the clock. -/
structure ResultEnv where
  heuristics : String → Option HeurDef
  attack_map : String → Option (String × List String)
  tagTransform : TagMap → TagMap
  fileMeta : String → Bool
  blobExists : String → Bool
  buildKey : Option String → Task → String
  buildErrorKey : Option String → Task → String
  resultCtorError : Option String
  now : Int
  archiveDays : Int

/-- The `SigArg` that `pop("signatures", [])` passes for a raw reference. -/
def sigArgOf (rh : RawHeuristic) : SigArg :=
  match rh.signatures with
  | some l => .dict l
  | none => .emptyList

/-- Python `str.upper` on the service name, written structurally (rather
than with `String.toUpper`, whose well-founded recursion does not reduce)
so that concrete inputs evaluate. -/
def pyUpper (s : String) : String :=
  ⟨s.data.map Char.toUpper⟩

/-- The namespaced heuristic id the finalizer builds for a raw reference
(line 193): upper-cased service name, a dot, the raw id. -/
def nsId (service_name : String) (rh : RawHeuristic) : String :=
  pyUpper service_name ++ "." ++ rh.heur_id

/-- Expansion of a scored heuristic object into the section dict
(lines 203-227): attack ids resolved against the attack map, signatures
listed with their frequencies. -/
def mkFinalHeur (env : ResultEnv) (ns_id : String) (h : ScoredHeur) : FinalHeur :=
  { heur_id := ns_id
    score := h.score
    name := h.name
    attack := h.attack_ids.map (fun a =>
      let info := (env.attack_map a).getD ("", [])
      { attack_id := a, pattern := info.1, categories := info.2 })
    signature := h.signatures.map (fun p => { name := p.1, frequency := p.2 }) }

/-- The per-section heuristic step of the scoring loop (lines 191-230):
sections without a heuristic pass through; otherwise the id is namespaced
with the upper-cased service name and the scorer runs, an
`InvalidHeuristicException` nulls the heuristic, and any other exception
propagates.  Returns the finalized section and its score contribution. -/
def processSection (env : ResultEnv) (service_name : String) (s : RawSection) :
    Except PyErr (FinalSection × Int) :=
  match s.heuristic with
  | none => .ok ({ heuristic := none, tags := s.tags }, 0)
  | some rh =>
    match heuristicInit env.heuristics (fun a => (env.attack_map a).isSome)
        (nsId service_name rh) (rh.attack_ids.getD []) (sigArgOf rh)
        (rh.frequency.getD 0) with
    | .ok h =>
      .ok ({ heuristic := some (mkFinalHeur env (nsId service_name rh) h),
             tags := s.tags }, h.score)
    | .error (.invalidHeuristic _) => .ok ({ heuristic := none, tags := s.tags }, 0)
    | .error e => .error e

/-- The scoring loop over all sections, accumulating `total_score`; the
first uncaught exception aborts the whole report. -/
def scoreSections (env : ResultEnv) (service_name : String) :
    List RawSection → Except PyErr (List FinalSection × Int)
  | [] => .ok ([], 0)
  | s :: rest =>
    match processSection env service_name s with
    | .error e => .error e
    | .ok (fs, sc) =>
      match scoreSections env service_name rest with
      | .error e => .error e
      | .ok (frest, screst) => .ok (fs :: frest, sc + screst)

/-- Outcome of `handle_task_result`: the completion calls and metrics
emitted, and either a raised exception or the list of missing files
(empty on full success, where the code returns None). -/
structure HTROut where
  finished : List FinCall
  metrics : List String
  outcome : Except PyErr (List String)
  deriving Repr, DecidableEq

/-- The hashes the file-existence check collects (lines 257-260): every
extracted or supplementary hash whose metadata record or blob is absent. -/
def missingOf (env : ResultEnv) (rp : ResultPayload) : List String :=
  (rp.response.extracted ++ rp.response.supplementary).filter
    (fun h => !(env.fileMeta h && env.blobExists h))

/-- `handle_task_result` (task.py lines 185-275): score the sections,
overwrite the aggregate score, stamp timestamps, pop the temporary
submission data, transform tags, build the Result, verify referenced
files, then notify the dispatch client and emit the scored metric. -/
def handle_task_result (env : ResultEnv) (task : Task) (rp : ResultPayload)
    (ci : ClientInfo) : HTROut :=
  match rp.result with
  | none => { finished := [], metrics := [], outcome := .error (.keyError "result") }
  | some rb =>
    match scoreSections env ci.service_name rb.sections with
    | .error e => { finished := [], metrics := [], outcome := .error e }
    | .ok (secs, total_score) =>
      match env.resultCtorError with
      | some m => { finished := [], metrics := [], outcome := .error (.valueError m) }
      | none =>
        let stored : StoredResult :=
          { sections := secs.map (fun s => { s with tags := env.tagTransform s.tags })
            score := total_score
            created := env.now
            archive_ts := env.now + env.archiveDays * 24 * 60 * 60
            expiry_ts := if task.ttl = 0 then none else some (env.now + task.ttl * 24 * 60 * 60)
            response := rp.response }
        let missing := missingOf env rp
        if missing.isEmpty then
          { finished := [{ sid := task.sid
                           key := env.buildKey rp.response.service_tool_version task
                           result := stored
                           temp_submission_data := rp.temp_submission_data }]
            metrics := [if stored.score > 0 then "scored" else "not_scored"]
            outcome := .ok [] }
        else
          { finished := [], metrics := [], outcome := .ok missing }

/-! ## Error finalization and the POST dispatcher (task.py lines 103-139, 278-299) -/

/-- A raw error payload as the external `Error(...)` constructor sees it:
either it validates (we keep the fields the handler reads) or construction
raises ValueError with a message. -/
inductive ErrBlob
  | good (status : String) (service_tool_version : Option String)
  | bad (msg : String)
  deriving Repr, DecidableEq

/-- A raw task payload as the external `ServiceTask(...)` constructor sees
it: either it validates to a task or construction raises ValueError. -/
inductive TaskBlob
  | good (t : Task)
  | bad (msg : String)
  deriving Repr, DecidableEq

/-- Outcome of `handle_task_error`. -/
structure HTEOut where
  failed : List FailCall
  metrics : List String
  outcome : Except PyErr Unit
  deriving Repr, DecidableEq

/-- `handle_task_error` (task.py lines 278-299): build the Error (ValueError
on a malformed payload), compute the error key, notify failure, and emit
the recoverable/nonrecoverable metric. -/
def handle_task_error (env : ResultEnv) (task : Task) (eb : ErrBlob) :
    HTEOut :=
  match eb with
  | .bad m => { failed := [], metrics := [], outcome := .error (.valueError m) }
  | .good status tool =>
    { failed := [{ sid := task.sid, key := env.buildErrorKey tool task, status := status }]
      metrics := [if status == "FAIL_RECOVERABLE" then "fail_recoverable"
                  else "fail_nonrecoverable"]
      outcome := .ok () }

/-- A POST /task/ request body; `none` fields model absent keys. -/
structure ReqBody where
  exec_time : Option Int
  task : Option TaskBlob
  result : Option ResultPayload
  error : Option ErrBlob
  deriving Repr, DecidableEq

/-- The structured responses `task_finished` can produce. -/
inductive PostResp
  | success
  | failure (missing_files : List String)
  | badRequest (msg : String)
  deriving Repr, DecidableEq

/-- Outcome of the POST handler: collaborator calls, metrics and either a
response or an uncaught exception (an unhandled 500). -/
structure PostOut where
  finished : List FinCall
  failed : List FailCall
  metrics : List String
  response : Except PyErr PostResp
  deriving Repr, DecidableEq

/-- `task_finished` (task.py lines 103-139): read `data["task"]` (KeyError
when absent), build the ServiceTask, then dispatch on the presence of
`result` / `error`; only ValueError is caught and turned into a 400. -/
def task_finished (env : ResultEnv) (ci : ClientInfo) (body : ReqBody) : PostOut :=
  match body.task with
  | none => { finished := [], failed := [], metrics := [],
              response := .error (.keyError "task") }
  | some (.bad m) => { finished := [], failed := [], metrics := [],
                       response := .ok (.badRequest m) }
  | some (.good task) =>
    match body.result with
    | some rp =>
      let h := handle_task_result env task rp ci
      { finished := h.finished, failed := [], metrics := h.metrics
        response :=
          match h.outcome with
          | .ok [] => .ok .success
          | .ok missing => .ok (.failure missing)
          | .error (.valueError m) => .ok (.badRequest m)
          | .error e => .error e }
    | none =>
      match body.error with
      | some eb =>
        let h := handle_task_error env task eb
        { finished := [], failed := h.failed, metrics := h.metrics
          response :=
            match h.outcome with
            | .ok _ => .ok .success
            | .error (.valueError m) => .ok (.badRequest m)
            | .error e => .error e }
      | none => { finished := [], failed := [], metrics := [],
                  response := .ok (.badRequest "No result or error provided by service.") }

/-! ## Work pickup (`get_task`, task.py lines 37-100) -/

/-- Client liveness states (`ServiceStatus`). -/
inductive ServiceStatus
  | Idle
  | Running
  deriving Repr, DecidableEq

/-- The per-service configuration the pickup handler reads
(`dispatch_client.service_data[service_name]`). -/
structure SvcData where
  timeout : Int
  disable_cache : Bool
  deriving Repr, DecidableEq

/-- A cached Result document; the pickup handler forwards it opaquely. -/
structure CachedResult where
  blob : String
  deriving Repr, DecidableEq

/-- One `service_finished` call made from the pickup cache short-circuit. -/
structure CacheFinCall where
  sid : String
  key : String
  result : CachedResult
  deriving Repr, DecidableEq

/-- Environment for the pickup handler: the clock, the dispatch client's
blocking `request_work` (as a function of the timeout it is given), the
deterministic key builder `Result.help_build_key`, the per-service
configuration (absent service name raises KeyError), the result and
empty-result stores and `create_empty_result_from_key`. -/
structure PickupEnv where
  now : Int
  requestWork : Int → Option Task
  helpBuildKey : Task → String
  serviceData : Option SvcData
  resultStore : String → Option CachedResult
  emptyStore : String → Bool
  mkEmptyResult : String → CachedResult

/-- The body of a pickup response: no task, or the task payload. -/
inductive PickupResp
  | noTask
  | work (t : Task)
  deriving Repr, DecidableEq

/-- Observable outcome of one pickup call: the timeout values passed to
`request_work`, the liveness writes, the cache lookups performed, the
completion calls, the `(execute, cache_miss)` metrics emitted, and the
response or uncaught exception. -/
structure PickupOut where
  requestWorkCalls : List Int
  statusWrites : List (ServiceStatus × Int)
  resultLookups : List String
  emptyLookups : List String
  finished : List CacheFinCall
  metrics : List (Int × Int)
  response : Except PyErr PickupResp
  deriving Repr, DecidableEq

/-- `get_task` (task.py lines 37-100).  The timeout header is parsed and
used as-is (default 30).  A missing task returns before the try block, so
no metric fires there.  Inside the try block the service data is read
(KeyError if unknown), the cache is consulted unless bypassed, and the
`finally` clause emits exactly one `(execute, cache_miss)` metric even
when an exception escapes. -/
def get_task (env : PickupEnv) (timeoutHeader : Option Int) : PickupOut :=
  let timeout := timeoutHeader.getD 30
  let idle : ServiceStatus × Int := (.Idle, env.now + timeout + 5)
  match env.requestWork timeout with
  | none =>
    { requestWorkCalls := [timeout], statusWrites := [idle], resultLookups := []
      emptyLookups := [], finished := [], metrics := [], response := .ok .noTask }
  | some task =>
    let key := env.helpBuildKey task
    match env.serviceData with
    | none =>
      { requestWorkCalls := [timeout], statusWrites := [idle], resultLookups := []
        emptyLookups := [], finished := [], metrics := [(1, 0)]
        response := .error (.keyError "service_data") }
    | some sd =>
      if !task.ignore_cache && !sd.disable_cache then
        match env.resultStore key with
        | some r =>
          { requestWorkCalls := [timeout], statusWrites := [idle]
            resultLookups := [key], emptyLookups := []
            finished := [{ sid := task.sid, key := key, result := r }]
            metrics := [(1, 0)], response := .ok .noTask }
        | none =>
          if env.emptyStore (key ++ ".e") then
            { requestWorkCalls := [timeout], statusWrites := [idle]
              resultLookups := [key], emptyLookups := [key ++ ".e"]
              finished := [{ sid := task.sid, key := key ++ ".e",
                             result := env.mkEmptyResult key }]
              metrics := [(1, 0)], response := .ok .noTask }
          else
            { requestWorkCalls := [timeout]
              statusWrites := [idle, (.Running, env.now + sd.timeout)]
              resultLookups := [key], emptyLookups := [key ++ ".e"], finished := []
              metrics := [(1, 1)], response := .ok (.work task) }
      else
        { requestWorkCalls := [timeout]
          statusWrites := [idle, (.Running, env.now + sd.timeout)]
          resultLookups := [], emptyLookups := [], finished := []
          metrics := [(1, 0)], response := .ok (.work task) }

/-! ## Characterizations of the finalization pipeline -/

/-- A section passes a signatures mapping (a dict) whenever it carries a
heuristic at all; sections violating this hit the `[].items()`
AttributeError in the scorer. -/
def sigsPresent (s : RawSection) : Bool :=
  match s.heuristic with
  | none => true
  | some rh => rh.signatures.isSome

/-- The heuristic field a section ends up with: none when the section has
no heuristic or its id does not resolve, otherwise the scored record. -/
def sectionHeur (env : ResultEnv) (service_name : String) (s : RawSection) :
    Option FinalHeur :=
  match s.heuristic with
  | none => none
  | some rh =>
    match heuristicInit env.heuristics (fun a => (env.attack_map a).isSome)
        (nsId service_name rh) (rh.attack_ids.getD []) (sigArgOf rh)
        (rh.frequency.getD 0) with
    | .ok h => some (mkFinalHeur env (nsId service_name rh) h)
    | .error _ => none

/-- The score contribution of one section: the scored heuristic's score,
else zero. -/
def sectionScore (env : ResultEnv) (service_name : String) (s : RawSection) : Int :=
  match s.heuristic with
  | none => 0
  | some rh =>
    match heuristicInit env.heuristics (fun a => (env.attack_map a).isSome)
        (nsId service_name rh) (rh.attack_ids.getD []) (sigArgOf rh)
        (rh.frequency.getD 0) with
    | .ok h => h.score
    | .error _ => 0

/-- The finalized sections of a report, after tag transformation. -/
def specSections (env : ResultEnv) (service_name : String) (rb : ResultBody) :
    List FinalSection :=
  rb.sections.map (fun s =>
    { heuristic := sectionHeur env service_name s, tags := env.tagTransform s.tags })

/-- The recomputed aggregate score of a report. -/
def specTotal (env : ResultEnv) (service_name : String) (rb : ResultBody) : Int :=
  (rb.sections.map (sectionScore env service_name)).sum

lemma processSection_eq (env : ResultEnv) (service_name : String) (s : RawSection)
    (hs : sigsPresent s = true) :
    processSection env service_name s
      = .ok ({ heuristic := sectionHeur env service_name s, tags := s.tags },
             sectionScore env service_name s) := by
  cases hh : s.heuristic with
  | none =>
    simp only [processSection, sectionHeur, sectionScore, hh]
  | some rh =>
    have hex : ∃ l, rh.signatures = some l := by
      simp only [sigsPresent, hh] at hs
      exact Option.isSome_iff_exists.mp hs
    obtain ⟨l, hl⟩ := hex
    have harg : sigArgOf rh = .dict l := by unfold sigArgOf; rw [hl]
    simp only [processSection, sectionHeur, sectionScore, hh, harg]
    cases hcat : env.heuristics (nsId service_name rh) with
    | none =>
      simp only [heuristicInit, hcat]
    | some d =>
      rw [heuristicInit_score env.heuristics (fun a => (env.attack_map a).isSome)
        (nsId service_name rh) (rh.attack_ids.getD []) l (rh.frequency.getD 0) d hcat]

lemma scoreSections_eq (env : ResultEnv) (service_name : String)
    (l : List RawSection) (hl : ∀ s ∈ l, sigsPresent s = true) :
    scoreSections env service_name l
      = .ok (l.map (fun s =>
               { heuristic := sectionHeur env service_name s, tags := s.tags }),
             (l.map (sectionScore env service_name)).sum) := by
  induction l with
  | nil => rfl
  | cons s rest ih =>
    have hs : sigsPresent s = true := hl s (List.mem_cons_self s rest)
    have hrest : ∀ x ∈ rest, sigsPresent x = true :=
      fun x hx => hl x (List.mem_cons_of_mem s hx)
    simp only [scoreSections, processSection_eq env service_name s hs, ih hrest,
      List.map_cons, List.sum_cons]

lemma handle_task_result_success (env : ResultEnv) (task : Task)
    (rp : ResultPayload) (ci : ClientInfo) (rb : ResultBody)
    (hrb : rp.result = some rb)
    (hsig : ∀ s ∈ rb.sections, sigsPresent s = true)
    (hctor : env.resultCtorError = none)
    (hmiss : missingOf env rp = []) :
    handle_task_result env task rp ci
      = { finished := [{ sid := task.sid
                         key := env.buildKey rp.response.service_tool_version task
                         result :=
                           { sections := specSections env ci.service_name rb
                             score := specTotal env ci.service_name rb
                             created := env.now
                             archive_ts := env.now + env.archiveDays * 24 * 60 * 60
                             expiry_ts := if task.ttl = 0 then none
                                          else some (env.now + task.ttl * 24 * 60 * 60)
                             response := rp.response }
                         temp_submission_data := rp.temp_submission_data }]
          metrics := [if specTotal env ci.service_name rb > 0 then "scored"
                      else "not_scored"]
          outcome := .ok [] } := by
  simp only [handle_task_result, hrb, scoreSections_eq env ci.service_name rb.sections hsig,
    hctor, hmiss, List.isEmpty_nil, specSections, specTotal, List.map_map]
  rfl

lemma handle_task_result_missing (env : ResultEnv) (task : Task)
    (rp : ResultPayload) (ci : ClientInfo) (rb : ResultBody)
    (hrb : rp.result = some rb)
    (hsig : ∀ s ∈ rb.sections, sigsPresent s = true)
    (hctor : env.resultCtorError = none)
    (hmiss : missingOf env rp ≠ []) :
    handle_task_result env task rp ci
      = { finished := [], metrics := [], outcome := .ok (missingOf env rp) } := by
  simp only [handle_task_result, hrb, scoreSections_eq env ci.service_name rb.sections hsig,
    hctor]
  rw [if_neg]
  simpa [List.isEmpty_iff] using hmiss

/-! ## Claim theorems -/

/-- A catalog with one heuristic whose configured max score is zero. -/
def catC1cex : String → Option HeurDef := fun s =>
  if s == "H" then
    some { name := "nm", classification := "cls", score := 10, max_score := some 0,
           signature_score_map := [] }
  else none

/-- C1 counterexample: with base score 10 and a configured max score of 0,
the claimed clamp yields min(max(10, 10), 0) = 0, but the code tests
`if definition.max_score:` and Python truthiness skips the min for a zero
max score, so the scorer returns 10. -/
theorem heuristic_score_claim_cex :
    (heuristicInit catC1cex (fun _ => false) "H" [] (.dict []) 1).toOption.map
        ScoredHeur.score
      ≠ some (claimScoreSpec 10 [] (some 0) [] 1) := by
  decide

/-- C1 amended: whenever the heuristic id resolves to a definition, the
scorer succeeds on a signatures dict and its score is the claimed formula
with the clamp amended to match the code: the min with the max score is
applied only when a nonzero max score is configured. -/
theorem heuristic_score_matches_amended_clamp
    (catalog : String → Option HeurDef) (inAttackMap : String → Bool)
    (heur_id : String) (attack_ids : List String) (sigs : List (String × Int))
    (frequency : Int) (d : HeurDef) (hres : catalog heur_id = some d) :
    ∃ h, heuristicInit catalog inAttackMap heur_id attack_ids (.dict sigs) frequency
            = .ok h
      ∧ h.score = claimScoreAmended d.score d.signature_score_map d.max_score sigs
          frequency :=
  ⟨_, heuristicInit_score catalog inAttackMap heur_id attack_ids sigs frequency d hres,
    rfl⟩

/-- The catalog of the spec example: base 10, no max, override sigA = 20. -/
def catC1ex1 : String → Option HeurDef := fun s =>
  if s == "EXTRACT.1" then
    some { name := "nm", classification := "cls", score := 10, max_score := none,
           signature_score_map := [("sigA", 20)] }
  else none

/-- The same with a configured max score of 50. -/
def catC1ex2 : String → Option HeurDef := fun s =>
  if s == "EXTRACT.1" then
    some { name := "nm", classification := "cls", score := 10, max_score := some 50,
           signature_score_map := [("sigA", 20)] }
  else none

/-- C1 witness: the two spec examples evaluate to 80 and to 50. -/
theorem heuristic_score_examples_witness :
    ((heuristicInit catC1ex1 (fun _ => false) "EXTRACT.1" []
        (.dict [("sigA", 2), ("sigB", 3)]) 1).toOption.map ScoredHeur.score = some 80)
    ∧ ((heuristicInit catC1ex2 (fun _ => false) "EXTRACT.1" []
        (.dict [("sigA", 2), ("sigB", 3)]) 1).toOption.map ScoredHeur.score
          = some 50) := by
  constructor
  · obtain ⟨h, he, hs⟩ := heuristic_score_matches_amended_clamp catC1ex1
      (fun _ => false) "EXTRACT.1" [] [("sigA", 2), ("sigB", 3)] 1 _ rfl
    rw [he]
    show some h.score = some 80
    rw [hs]
    decide
  · obtain ⟨h, he, hs⟩ := heuristic_score_matches_amended_clamp catC1ex2
      (fun _ => false) "EXTRACT.1" [] [("sigA", 2), ("sigB", 3)] 1 _ rfl
    rw [he]
    show some h.score = some 50
    rw [hs]
    decide

/-- The catalog for the C9 failing input: `EXTRACT.1` resolves with base
score 10 and no overrides. -/
def catC9 : String → Option HeurDef := fun s =>
  if s == "EXTRACT.1" then
    some { name := "nm", classification := "cls", score := 10, max_score := none,
           signature_score_map := [] }
  else none

/-- The environment for the C9 failing input: everything else healthy. -/
def envC9 : ResultEnv :=
  { heuristics := catC9, attack_map := fun _ => none, tagTransform := id
    fileMeta := fun _ => true, blobExists := fun _ => true
    buildKey := fun _ _ => "rkey", buildErrorKey := fun _ _ => "ekey"
    resultCtorError := none, now := 0, archiveDays := 365 }

/-- The C9 failing report: one section whose heuristic reference resolves
(`EXTRACT.1`) but omits the signatures mapping. -/
def bodyC9 : ReqBody :=
  { exec_time := none
    task := some (.good { sid := "sid0", sha256 := "sha0", ttl := 0,
                          ignore_cache := false })
    result := some
      { result := some
          { sections := [{ heuristic := some { heur_id := "1", attack_ids := none,
                                               signatures := none,
                                               frequency := some 1 },
                           tags := "t" }]
            score := 0 }
        response := { extracted := [], supplementary := [],
                      service_tool_version := none }
        temp_submission_data := none }
    error := none }

/-- C9: a resolvable heuristic with the signatures mapping omitted does not
finalize to the base-score floor; the scorer iterates the list default
`[].items()` and raises AttributeError, which nothing catches, so the call
fails as an unhandled server error.  The second conjunct checks the id
does resolve in the catalog, so the failure is not an unknown heuristic. -/
theorem omitted_signatures_crash :
    (task_finished envC9 { service_name := "Extract", client_id := "cid" }
        bodyC9).response
      = .error (.attributeError "list object has no attribute items")
    ∧ (catC9 "EXTRACT.1").isSome = true := by
  constructor
  · rfl
  · decide

/-- C2: when any extracted or supplementary hash is missing from the file
metadata table or the blob store, the POST returns success=false carrying
all such hashes, and the dispatch completion notifier is not called. -/
theorem missing_files_soft_fail (env : ResultEnv) (ci : ClientInfo) (task : Task)
    (rp : ResultPayload) (rb : ResultBody) (et : Option Int) (eb : Option ErrBlob)
    (hrb : rp.result = some rb)
    (hsig : ∀ s ∈ rb.sections, sigsPresent s = true)
    (hctor : env.resultCtorError = none)
    (hmiss : missingOf env rp ≠ []) :
    (task_finished env ci ⟨et, some (.good task), some rp, eb⟩).response
      = .ok (.failure (missingOf env rp))
    ∧ (task_finished env ci ⟨et, some (.good task), some rp, eb⟩).finished = []
    ∧ ∀ h ∈ rp.response.extracted ++ rp.response.supplementary,
        (env.fileMeta h = false ∨ env.blobExists h = false) →
        h ∈ missingOf env rp := by
  have hh := handle_task_result_missing env task rp ci rb hrb hsig hctor hmiss
  refine ⟨?_, ?_, ?_⟩
  · cases hm : missingOf env rp with
    | nil => exact absurd hm hmiss
    | cons a l =>
      rw [hm] at hh
      simp only [task_finished, hh]
  · simp only [task_finished, hh]
  · intro h hmem hab
    simp only [missingOf, List.mem_filter, List.mem_append] at *
    refine ⟨hmem, ?_⟩
    rcases hab with hf | hb
    · simp [hf]
    · simp [hb]

/-- The witness catalog: `EXTRACT.1` resolves, everything else does not. -/
def catW : String → Option HeurDef := fun s =>
  if s == "EXTRACT.1" then
    some { name := "nm", classification := "cls", score := 10, max_score := none,
           signature_score_map := [("sigA", 20)] }
  else none

/-- A healthy witness environment: only the hash "goodfile" is stored. -/
def envW : ResultEnv :=
  { heuristics := catW, attack_map := fun _ => none, tagTransform := id
    fileMeta := fun h => h == "goodfile", blobExists := fun h => h == "goodfile"
    buildKey := fun _ _ => "rkey", buildErrorKey := fun _ _ => "ekey"
    resultCtorError := none, now := 100, archiveDays := 365 }

/-- The witness task (no ttl, no cache bypass). -/
def taskW : Task :=
  { sid := "sidW", sha256 := "shaW", ttl := 0, ignore_cache := false }

/-- The witness client identity. -/
def ciW : ClientInfo := { service_name := "Extract", client_id := "cid" }

/-- A payload referencing one extracted hash that is not stored. -/
def rpMissW : ResultPayload :=
  { result := some { sections := [], score := 0 }
    response := { extracted := ["missing1"], supplementary := [],
                  service_tool_version := none }
    temp_submission_data := none }

/-- C2 witness: the unreferenced hash comes back in missing_files and no
completion call is made. -/
theorem missing_files_soft_fail_witness :
    (task_finished envW ciW ⟨none, some (.good taskW), some rpMissW, none⟩).response
      = .ok (.failure ["missing1"])
    ∧ (task_finished envW ciW ⟨none, some (.good taskW), some rpMissW, none⟩).finished
      = [] := by
  have h := missing_files_soft_fail envW ciW taskW rpMissW { sections := [], score := 0 }
    none none rfl (by intro s hs; exact absurd hs (List.not_mem_nil s)) rfl (by decide)
  exact ⟨h.1, h.2.1⟩

/-- C4: an unresolvable heuristic id on one section only nulls that
section's heuristic; every sibling whose id resolves keeps its recomputed
scored heuristic, the request succeeds, and the stored aggregate score is
the sum of the per-section scores, where a section scores its validated
heuristic's score and zero otherwise. -/
theorem invalid_heuristic_degrades_only_section (env : ResultEnv) (ci : ClientInfo)
    (task : Task) (rp : ResultPayload) (rb : ResultBody) (et : Option Int)
    (eb : Option ErrBlob)
    (hrb : rp.result = some rb)
    (hsig : ∀ s ∈ rb.sections, sigsPresent s = true)
    (hctor : env.resultCtorError = none)
    (hmiss : missingOf env rp = [])
    (hinv : ∃ s ∈ rb.sections, ∃ rh, s.heuristic = some rh ∧
        env.heuristics (nsId ci.service_name rh) = none) :
    (task_finished env ci ⟨et, some (.good task), some rp, eb⟩).response
      = .ok .success
    ∧ (∃ fc, (task_finished env ci ⟨et, some (.good task), some rp, eb⟩).finished = [fc]
        ∧ fc.result.sections = specSections env ci.service_name rb
        ∧ fc.result.score = specTotal env ci.service_name rb)
    ∧ (∀ s ∈ rb.sections, ∀ rh, s.heuristic = some rh →
        env.heuristics (nsId ci.service_name rh) = none →
        sectionHeur env ci.service_name s = none)
    ∧ (∀ s ∈ rb.sections, ∀ rh, s.heuristic = some rh →
        ∀ d, env.heuristics (nsId ci.service_name rh) = some d →
        ∃ h, heuristicInit env.heuristics (fun a => (env.attack_map a).isSome)
              (nsId ci.service_name rh) (rh.attack_ids.getD []) (sigArgOf rh)
              (rh.frequency.getD 0) = .ok h
          ∧ sectionHeur env ci.service_name s
              = some (mkFinalHeur env (nsId ci.service_name rh) h)
          ∧ sectionScore env ci.service_name s = h.score)
    ∧ (∀ s ∈ rb.sections, sectionHeur env ci.service_name s = none →
        sectionScore env ci.service_name s = 0) := by
  have hsucc := handle_task_result_success env task rp ci rb hrb hsig hctor hmiss
  refine ⟨?_, ?_, ?_, ?_, ?_⟩
  · simp only [task_finished, hsucc]
  · refine ⟨{ sid := task.sid
              key := env.buildKey rp.response.service_tool_version task
              result := { sections := specSections env ci.service_name rb
                          score := specTotal env ci.service_name rb
                          created := env.now
                          archive_ts := env.now + env.archiveDays * 24 * 60 * 60
                          expiry_ts := if task.ttl = 0 then none
                                       else some (env.now + task.ttl * 24 * 60 * 60)
                          response := rp.response }
              temp_submission_data := rp.temp_submission_data }, ?_, rfl, rfl⟩
    simp only [task_finished, hsucc]
  · intro s _ rh hh hcat
    simp only [sectionHeur, hh, heuristicInit, hcat]
  · intro s hmem rh hh d hcat
    have hs := hsig s hmem
    simp only [sigsPresent, hh] at hs
    obtain ⟨l, hl⟩ := Option.isSome_iff_exists.mp hs
    have harg : sigArgOf rh = .dict l := by unfold sigArgOf; rw [hl]
    rw [harg]
    refine ⟨_, heuristicInit_score env.heuristics (fun a => (env.attack_map a).isSome)
      (nsId ci.service_name rh) (rh.attack_ids.getD []) l (rh.frequency.getD 0) d hcat,
      ?_, ?_⟩
    · simp only [sectionHeur, hh, harg,
        heuristicInit_score env.heuristics (fun a => (env.attack_map a).isSome)
          (nsId ci.service_name rh) (rh.attack_ids.getD []) l (rh.frequency.getD 0) d hcat]
    · simp only [sectionScore, hh, harg,
        heuristicInit_score env.heuristics (fun a => (env.attack_map a).isSome)
          (nsId ci.service_name rh) (rh.attack_ids.getD []) l (rh.frequency.getD 0) d hcat]
  · intro s _ hnone
    cases hh : s.heuristic with
    | none => simp only [sectionScore, hh]
    | some rh =>
      simp only [sectionHeur, hh] at hnone
      simp only [sectionScore, hh]
      cases hi : heuristicInit env.heuristics (fun a => (env.attack_map a).isSome)
          (nsId ci.service_name rh) (rh.attack_ids.getD []) (sigArgOf rh)
          (rh.frequency.getD 0) with
      | ok h => rw [hi] at hnone; simp at hnone
      | error e => simp only [hi]

/-- The valid section of the C4 witness report: heuristic `1` resolves. -/
def secValidW : RawSection :=
  { heuristic := some { heur_id := "1", attack_ids := none,
                        signatures := some [("sigA", 2), ("sigB", 3)],
                        frequency := some 1 }
    tags := "tv" }

/-- The raw reference of the invalid section of the C4 witness report. -/
def rhInvalidW : RawHeuristic :=
  { heur_id := "9", attack_ids := none, signatures := some [], frequency := some 0 }

/-- The invalid section of the C4 witness report: heuristic `9` does not
resolve. -/
def secInvalidW : RawSection :=
  { heuristic := some rhInvalidW, tags := "ti" }

/-- The C4 witness report body: one valid and one invalid heuristic. -/
def rbC4W : ResultBody := { sections := [secValidW, secInvalidW], score := 0 }

/-- The C4 witness payload: no referenced files, so nothing can be missing. -/
def rpC4W : ResultPayload :=
  { result := some rbC4W
    response := { extracted := [], supplementary := [], service_tool_version := none }
    temp_submission_data := none }

/-- C4 witness: the mixed report succeeds, one completion call is made
whose aggregate score is the valid section's score 80, and the invalid
section's heuristic is nulled. -/
theorem invalid_heuristic_degrades_only_section_witness :
    (task_finished envW ciW ⟨none, some (.good taskW), some rpC4W, none⟩).response
      = .ok .success
    ∧ (∃ fc, (task_finished envW ciW
        ⟨none, some (.good taskW), some rpC4W, none⟩).finished = [fc]
        ∧ fc.result.score = 80)
    ∧ sectionHeur envW "Extract" secInvalidW = none := by
  have h := invalid_heuristic_degrades_only_section envW ciW taskW rpC4W rbC4W
    none none rfl (by decide) rfl (by decide)
    ⟨secInvalidW, by decide, rhInvalidW, rfl, by decide⟩
  refine ⟨h.1, ?_, ?_⟩
  · obtain ⟨fc, hfin, _, hscore⟩ := h.2.1
    exact ⟨fc, hfin, by rw [hscore]; decide⟩
  · exact h.2.2.1 secInvalidW (by decide) rhInvalidW rfl (by decide)

/-- Every completion call carries exactly the aggregate score that the
scoring loop recomputed from the sections. -/
lemma handle_finished_score (env : ResultEnv) (task : Task) (rp : ResultPayload)
    (ci : ClientInfo) (rb : ResultBody) (hrb : rp.result = some rb) :
    ∀ fc ∈ (handle_task_result env task rp ci).finished,
      ∃ secs, scoreSections env ci.service_name rb.sections
        = .ok (secs, fc.result.score) := by
  intro fc hfc
  simp only [handle_task_result, hrb] at hfc
  cases hsc : scoreSections env ci.service_name rb.sections with
  | error e => rw [hsc] at hfc; simp at hfc
  | ok p =>
    obtain ⟨secs, total⟩ := p
    rw [hsc] at hfc
    cases hce : env.resultCtorError with
    | some m => rw [hce] at hfc; simp at hfc
    | none =>
      rw [hce] at hfc
      simp only at hfc
      by_cases hm : (missingOf env rp).isEmpty
      · rw [if_pos hm] at hfc
        simp only [List.mem_singleton] at hfc
        subst hfc
        exact ⟨secs, rfl⟩
      · rw [if_neg hm] at hfc
        simp at hfc

/-- C10: the worker-declared aggregate score has no effect: two
submissions identical except for the declared `result.result.score` field
produce identical POST outcomes (same stored Result, same completion
calls, same metrics, same response), and any completion call carries the
recomputed aggregate from the scoring loop, not the declared value. -/
theorem declared_score_ignored (env : ResultEnv) (ci : ClientInfo) (task : Task)
    (rp : ResultPayload) (rb : ResultBody) (x : Int) (et : Option Int)
    (eb : Option ErrBlob) :
    task_finished env ci
        ⟨et, some (.good task), some { rp with result := some { rb with score := x } }, eb⟩
      = task_finished env ci
          ⟨et, some (.good task), some { rp with result := some rb }, eb⟩
    ∧ ∀ fc ∈ (task_finished env ci
        ⟨et, some (.good task), some { rp with result := some rb }, eb⟩).finished,
        ∃ secs, scoreSections env ci.service_name rb.sections
          = .ok (secs, fc.result.score) := by
  constructor
  · rfl
  · intro fc hfc
    exact handle_finished_score env task { rp with result := some rb } ci rb rfl fc hfc

/-- The C10 witness report bodies: identical except for declared scores
999 and 0. -/
def rpScoreW (x : Int) : ResultPayload :=
  { result := some { sections := [secValidW], score := x }
    response := { extracted := [], supplementary := [], service_tool_version := none }
    temp_submission_data := none }

/-- C10 witness: with declared scores 999 and 0 the two POST outcomes are
equal, and the single completion call carries the recomputed score 80. -/
theorem declared_score_ignored_witness :
    task_finished envW ciW ⟨none, some (.good taskW), some (rpScoreW 999), none⟩
      = task_finished envW ciW ⟨none, some (.good taskW), some (rpScoreW 0), none⟩
    ∧ ∃ fc, (task_finished envW ciW
        ⟨none, some (.good taskW), some (rpScoreW 0), none⟩).finished = [fc]
        ∧ fc.result.score = 80 := by
  have h := declared_score_ignored envW ciW taskW (rpScoreW 0)
    { sections := [secValidW], score := 0 } 999 none none
  constructor
  · exact h.1
  · have hfin : (task_finished envW ciW
        ⟨none, some (.good taskW), some (rpScoreW 0), none⟩).finished.length = 1 := by
      decide
    cases hfc : (task_finished envW ciW
        ⟨none, some (.good taskW), some (rpScoreW 0), none⟩).finished with
    | nil => rw [hfc] at hfin; simp at hfin
    | cons fc rest =>
      have hrest : rest = [] := by
        rw [hfc] at hfin
        simpa using hfin
      subst hrest
      refine ⟨fc, rfl, ?_⟩
      have hmem : fc ∈ (task_finished envW ciW
          ⟨none, some (.good taskW), some (rpScoreW 0), none⟩).finished := by
        rw [hfc]; exact List.mem_singleton.mpr rfl
      obtain ⟨secs, hsecs⟩ := h.2 fc hmem
      have hchar := scoreSections_eq envW ciW.service_name [secValidW] (by decide)
      rw [hchar] at hsecs
      have h2 : (List.map (sectionScore envW ciW.service_name) [secValidW]).sum
          = fc.result.score := congrArg Prod.snd (Except.ok.inj hsecs)
      rw [← h2]
      decide

/-- The cache_miss flag of one pickup, as the code computes it: set only
when the service data resolves, caching is permitted, and both the result
and the empty-result lookups miss. -/
def specCacheMiss (env : PickupEnv) (t : Task) : Bool :=
  match env.serviceData with
  | none => false
  | some sd =>
    !t.ignore_cache && !sd.disable_cache
      && (env.resultStore (env.helpBuildKey t)).isNone
      && !env.emptyStore (env.helpBuildKey t ++ ".e")

/-- A pickup environment in which no task is available. -/
def envNoWork : PickupEnv :=
  { now := 0, requestWork := fun _ => none
    helpBuildKey := fun t => t.sha256 ++ ".k"
    serviceData := some { timeout := 60, disable_cache := false }
    resultStore := fun _ => none, emptyStore := fun _ => false
    mkEmptyResult := fun k => { blob := k } }

/-- C5 counterexample: an empty poll returns before the try/finally block
(line 69 precedes line 71), so no execute metric at all is emitted on the
no-task branch, not exactly one. -/
theorem execute_metric_empty_poll_cex :
    (get_task envNoWork (some 30)).metrics = []
    ∧ (get_task envNoWork (some 30)).metrics.length ≠ 1 := by
  constructor
  · decide
  · decide

/-- C5 amended: the `(execute, cache_miss)` metric is emitted exactly once
whenever `request_work` yields a task — on the cache-hit branch, the
task-returned branch and the mid-handling error branch alike — with the
cache_miss flag reflecting the cache-lookup outcome; on an empty poll no
metric is emitted. -/
theorem execute_metric_once_when_task_obtained (env : PickupEnv) (th : Option Int) :
    (env.requestWork (th.getD 30) = none → (get_task env th).metrics = [])
    ∧ (∀ t, env.requestWork (th.getD 30) = some t →
        (get_task env th).metrics = [(1, if specCacheMiss env t then 1 else 0)]) := by
  constructor
  · intro hw
    simp only [get_task, hw]
  · intro t hw
    obtain ⟨now, rwk, hbk, sdata, rstore, estore, mke⟩ := env
    replace hw : rwk (th.getD 30) = some t := hw
    cases sdata with
    | none => simp [get_task, specCacheMiss, hw]
    | some sd =>
      cases hres : rstore (hbk t) with
      | some r =>
        cases hic : t.ignore_cache <;> cases hdc : sd.disable_cache <;>
          simp [get_task, specCacheMiss, hw, hres, hic, hdc]
      | none =>
        cases hemp : estore (hbk t ++ ".e") <;>
          cases hic : t.ignore_cache <;> cases hdc : sd.disable_cache <;>
            simp [get_task, specCacheMiss, hw, hres, hemp, hic, hdc]

/-- The task and environment of a successful pickup with a cached result. -/
def taskP : Task := { sid := "sidP", sha256 := "shaP", ttl := 0, ignore_cache := false }

/-- A pickup environment holding a cached result for taskP. -/
def envHit : PickupEnv :=
  { now := 0, requestWork := fun _ => some taskP
    helpBuildKey := fun t => t.sha256 ++ ".k"
    serviceData := some { timeout := 60, disable_cache := false }
    resultStore := fun k => if k == "shaP.k" then some { blob := "cached" } else none
    emptyStore := fun _ => false
    mkEmptyResult := fun k => { blob := k } }

/-- C5 witness: a pickup that obtains a task and hits the cache emits
exactly one metric, with cache_miss = 0. -/
theorem execute_metric_once_witness :
    (get_task envHit (some 30)).metrics = [(1, 0)] := by
  have h := (execute_metric_once_when_task_obtained envHit (some 30)).2 taskP rfl
  rw [h]
  decide

/-- C3: when a task is obtained, caching is permitted, and either a cached
full Result or an empty-result marker exists under the deterministic key,
the pickup reports completion to the dispatch client with that task's sid
and the cached (or synthesized empty) result, and responds task=false. -/
theorem cache_hit_completes_and_no_task (env : PickupEnv) (th : Option Int)
    (t : Task) (sd : SvcData)
    (hw : env.requestWork (th.getD 30) = some t)
    (hsd : env.serviceData = some sd)
    (hic : t.ignore_cache = false)
    (hdc : sd.disable_cache = false)
    (hcache : (env.resultStore (env.helpBuildKey t)).isSome = true
      ∨ env.emptyStore (env.helpBuildKey t ++ ".e") = true) :
    (get_task env th).response = .ok .noTask
    ∧ (get_task env th).finished
        = (match env.resultStore (env.helpBuildKey t) with
           | some r => [{ sid := t.sid, key := env.helpBuildKey t, result := r }]
           | none => [{ sid := t.sid, key := env.helpBuildKey t ++ ".e",
                        result := env.mkEmptyResult (env.helpBuildKey t) }]) := by
  simp only [get_task, hw, hsd, hic, hdc, Bool.not_false, Bool.and_self, if_true]
  cases hres : env.resultStore (env.helpBuildKey t) with
  | some r => refine ⟨?_, ?_⟩ <;> first | rfl | exact trivial
  | none =>
    rcases hcache with hc | hc
    · rw [hres] at hc
      simp at hc
    · simp only [hc, if_true]
      refine ⟨?_, ?_⟩ <;> first | rfl | exact trivial

/-- C3 witness: the cached-result pickup completes the task and returns no
task to the worker. -/
theorem cache_hit_completes_and_no_task_witness :
    (get_task envHit (some 30)).response = .ok .noTask
    ∧ (get_task envHit (some 30)).finished
        = [{ sid := "sidP", key := "shaP.k", result := { blob := "cached" } }] := by
  have h := cache_hit_completes_and_no_task envHit (some 30) taskP
    { timeout := 60, disable_cache := false } rfl rfl rfl rfl (Or.inl (by decide))
  exact ⟨h.1, h.2.trans (by decide)⟩

/-- C6: when the obtained task sets cache-bypass or the service disables
caching, no cached-result lookup and no empty-marker lookup happen and the
task is returned to the worker. -/
theorem cache_bypass_skips_lookups (env : PickupEnv) (th : Option Int)
    (t : Task) (sd : SvcData)
    (hw : env.requestWork (th.getD 30) = some t)
    (hsd : env.serviceData = some sd)
    (hbp : t.ignore_cache = true ∨ sd.disable_cache = true) :
    (get_task env th).resultLookups = []
    ∧ (get_task env th).emptyLookups = []
    ∧ (get_task env th).response = .ok (.work t) := by
  have hcond : (!t.ignore_cache && !sd.disable_cache) = false := by
    rcases hbp with h | h <;> simp [h]
  simp only [get_task, hw, hsd, hcond, Bool.false_eq_true, if_false]
  refine ⟨?_, ?_, ?_⟩ <;> first | rfl | exact trivial

/-- A task with the cache-bypass flag set. -/
def taskB : Task := { sid := "sidB", sha256 := "shaB", ttl := 0, ignore_cache := true }

/-- A pickup environment where the cache does hold entries for taskB, but
the task requests cache bypass. -/
def envBypass : PickupEnv :=
  { now := 0, requestWork := fun _ => some taskB
    helpBuildKey := fun t => t.sha256 ++ ".k"
    serviceData := some { timeout := 60, disable_cache := false }
    resultStore := fun _ => some { blob := "cached" }
    emptyStore := fun _ => true
    mkEmptyResult := fun k => { blob := k } }

/-- C6 witness: despite a populated cache, a bypassing task triggers no
lookups and is handed to the worker. -/
theorem cache_bypass_skips_lookups_witness :
    (get_task envBypass (some 30)).resultLookups = []
    ∧ (get_task envBypass (some 30)).emptyLookups = []
    ∧ (get_task envBypass (some 30)).response = .ok (.work taskB) :=
  cache_bypass_skips_lookups envBypass (some 30) taskB
    { timeout := 60, disable_cache := false } rfl rfl (Or.inl rfl)

/-- C7 counterexample: a pickup with timeout header 0 is neither rejected
nor clamped: the handler completes normally and passes 0 — not a positive
value — to the blocking `request_work`. -/
theorem timeout_zero_not_clamped_cex :
    (get_task envNoWork (some 0)).requestWorkCalls = [0]
    ∧ (get_task envNoWork (some 0)).response = .ok .noTask
    ∧ ¬ ((0 : Int) > 0) := by
  refine ⟨by decide, by decide, by decide⟩

/-- C7 amended: the parsed timeout header (default 30) is passed to
`request_work` unchanged on every pickup; zero or negative values are
neither rejected nor clamped by the handler. -/
theorem timeout_passed_through (env : PickupEnv) (th : Option Int) :
    (get_task env th).requestWorkCalls = [th.getD 30] := by
  simp only [get_task]
  repeat' split
  all_goals rfl

/-- C7 witness: a zero timeout header reaches `request_work` as 0. -/
theorem timeout_passed_through_witness :
    (get_task envHit (some 0)).requestWorkCalls = [0] :=
  timeout_passed_through envHit (some 0)

/-- A result payload whose `result` key holds no `result` sub-object. -/
def rpNoResultW : ResultPayload :=
  { result := none
    response := { extracted := [], supplementary := [], service_tool_version := none }
    temp_submission_data := none }

/-- C8 counterexample: a body without the `task` key, and a result payload
without the `result` sub-object, both raise uncaught KeyError (an
unhandled server error), not a 400-class response — `except ValueError`
does not catch KeyError. -/
theorem missing_keys_unhandled_cex :
    (task_finished envW ciW ⟨none, none, none, none⟩).response
      = .error (.keyError "task")
    ∧ (task_finished envW ciW
        ⟨none, some (.good taskW), some rpNoResultW, none⟩).response
      = .error (.keyError "result") := by
  constructor
  · rfl
  · rfl

/-- C8 amended: ValueError-based failures are turned into 400-class
responses: a task payload whose model construction fails, a missing
result/error pair (with the fixed message), a malformed error payload, and
a ValueError from the strict-schema Result constructor.  (Missing `task`
key or missing `result` sub-object instead escape as KeyError.) -/
theorem post_validation_amended (env : ResultEnv) (ci : ClientInfo) (et : Option Int) :
    (∀ m rpo ebo, (task_finished env ci ⟨et, some (.bad m), rpo, ebo⟩).response
        = .ok (.badRequest m))
    ∧ (∀ task, (task_finished env ci ⟨et, some (.good task), none, none⟩).response
        = .ok (.badRequest "No result or error provided by service."))
    ∧ (∀ task m, (task_finished env ci
        ⟨et, some (.good task), none, some (.bad m)⟩).response
        = .ok (.badRequest m))
    ∧ (∀ task rp rb m ebo, rp.result = some rb →
        (∀ s ∈ rb.sections, sigsPresent s = true) →
        env.resultCtorError = some m →
        (task_finished env ci ⟨et, some (.good task), some rp, ebo⟩).response
          = .ok (.badRequest m)) := by
  refine ⟨fun m rpo ebo => rfl, fun task => rfl, fun task m => rfl, ?_⟩
  intro task rp rb m ebo hrb hsig hce
  simp only [task_finished, handle_task_result, hrb,
    scoreSections_eq env ci.service_name rb.sections hsig, hce]

/-- An environment whose external Result constructor raises ValueError. -/
def envCtorFail : ResultEnv :=
  { heuristics := catW, attack_map := fun _ => none, tagTransform := id
    fileMeta := fun _ => true, blobExists := fun _ => true
    buildKey := fun _ _ => "rkey", buildErrorKey := fun _ _ => "ekey"
    resultCtorError := some "bad result", now := 100, archiveDays := 365 }

/-- C8 witness: the no-result-no-error body, a malformed task blob, a
malformed error blob, and a failing Result constructor all yield 400-class
responses. -/
theorem post_validation_amended_witness :
    (task_finished envW ciW ⟨none, some (.good taskW), none, none⟩).response
      = .ok (.badRequest "No result or error provided by service.")
    ∧ (task_finished envW ciW ⟨none, some (.bad "bad task"), none, none⟩).response
      = .ok (.badRequest "bad task")
    ∧ (task_finished envW ciW
        ⟨none, some (.good taskW), none, some (.bad "bad error")⟩).response
      = .ok (.badRequest "bad error")
    ∧ (task_finished envCtorFail ciW
        ⟨none, some (.good taskW), some (rpScoreW 0), none⟩).response
      = .ok (.badRequest "bad result") := by
  refine ⟨?_, ?_, ?_, ?_⟩
  · exact (post_validation_amended envW ciW none).2.1 taskW
  · exact (post_validation_amended envW ciW none).1 "bad task" none none
  · exact (post_validation_amended envW ciW none).2.2.1 taskW "bad error"
  · exact (post_validation_amended envCtorFail ciW none).2.2.2 taskW (rpScoreW 0)
      { sections := [secValidW], score := 0 } "bad result" none rfl (by decide) rfl

end ALSvc
